import Mathlib

/-!
Verification of the AWS DMS data-ingestion orchestration scripts
(bin/deploy.py, bin/unwind.py, bin/dms.py, bin/infra.py,
bin/validate_and_monitor.py) against their natural-language specification.

The Python code is shallowly embedded: provider (boto3) calls are modelled
as an environment supplying their results, and each script function becomes
a pure Lean function from that environment and the persisted state to the
new state plus the list of provider calls it issues.  Wall-clock timestamps
are passed in as opaque strings; `time.sleep` has no observable effect and
is dropped.
-/

/-! ## Generic helpers: Python dict/string semantics -/

/-- Python `dict` lookup over an association list (insertion order kept). -/
def getAssoc {α : Type} : List (String × α) → String → Option α
  | [], _ => none
  | (k, v) :: rest, key => if k = key then some v else getAssoc rest key

/-- Python `dict` assignment: replace in place, or append a new key at the end. -/
def setAssoc {α : Type} : List (String × α) → String → α → List (String × α)
  | [], key, value => [(key, value)]
  | (k, v) :: rest, key, value =>
      if k = key then (key, value) :: rest else (k, v) :: setAssoc rest key value

theorem getAssoc_setAssoc {α : Type} (m : List (String × α)) (key : String) (value : α) :
    getAssoc (setAssoc m key value) key = some value := by
  induction m with
  | nil => simp [setAssoc, getAssoc]
  | cons p rest ih =>
      obtain ⟨k, v⟩ := p
      by_cases h : k = key
      · simp [setAssoc, getAssoc, h]
      · simp [setAssoc, getAssoc, h, ih]

/-- `listIsPrefixOf needle hay` : `needle` is a prefix of `hay` (Boolean). -/
def listIsPrefixOf : List Char → List Char → Bool
  | [], _ => true
  | _ :: _, [] => false
  | a :: as, b :: bs => a == b && listIsPrefixOf as bs

/-- `listContainsSub needle hay` : `needle` occurs contiguously in `hay`. -/
def listContainsSub (needle : List Char) : List Char → Bool
  | [] => needle.isEmpty
  | c :: rest => listIsPrefixOf needle (c :: rest) || listContainsSub needle rest

/-- Python `needle in hay` for strings (substring test). -/
def strContains (hay needle : String) : Bool :=
  listContainsSub needle.data hay.data

/-- Python truthiness of an optional string (`None` and `""` are falsy). -/
def truthy : Option String → Bool
  | none => false
  | some s => !s.isEmpty

/-! ## bin/dms.py — migration monitoring (claim C7) -/

namespace DMS

/-- The allow-list of successful-completion stop reasons checked by
`monitor_migration_completion` when the task status is `stopped`
(bin/dms.py lines 517-522). -/
def successStopReasons : List String :=
  ["FULL_LOAD_ONLY_FINISHED", "FULL_LOAD_COMPLETED",
   "STOPPED_AFTER_FULL_LOAD", "STOPPED_AFTER_CACHED_EVENTS"]

/-- `any(reason in stop_reason for reason in [...])` from
`monitor_migration_completion`. -/
def classifyStoppedReason (stopReason : String) : Bool :=
  successStopReasons.any (fun reason => strContains stopReason reason)

/-- The allow-list used by `start_migration` in its `stopped` branch
(bin/dms.py line 408). -/
def startMigrationCompletedReason (stopReason : String) : Bool :=
  (["FULL_LOAD_ONLY_FINISHED", "FULL_LOAD_COMPLETED"]).any
    (fun reason => strContains stopReason reason)

/-- One `describe_replication_tasks` poll result observed by the monitor. -/
inductive PollResult where
  /-- the response contained no tasks -/
  | noTasks
  /-- a task with the given `Status` and `StopReason` -/
  | task (status : String) (stopReason : String)
  /-- the describe call raised a `ClientError` -/
  | clientError
deriving DecidableEq

/-- `monitor_migration_completion` (bin/dms.py lines 467-550), as a function
of the successive poll results.  The empty list is the 1-hour timeout
(returns failure); `noTasks` and `clientError` return failure; a `stopped`
task is classified by its stop reason; a `failed` task is failure; any other
status continues polling. -/
def monitor_migration_completion : List PollResult → Bool
  | [] => false
  | PollResult.noTasks :: _ => false
  | PollResult.clientError :: _ => false
  | PollResult.task status stopReason :: rest =>
      if status = "stopped" then classifyStoppedReason stopReason
      else if status = "failed" then false
      else monitor_migration_completion rest

end DMS

/-! ## bin/validate_and_monitor.py — row-count validation (claim C8) -/

namespace Validate

/-- The whitespace set stripped by Python `str.strip()` (ASCII part; the
CSV exports handled here are ASCII). -/
def pyIsSpace (c : Char) : Bool :=
  c == ' ' || c == '\t' || c == '\n' || c == '\r' || c == '\x0b' || c == '\x0c'

/-- Python `str.strip()` on the character list of a string. -/
def pyStripChars (cs : List Char) : List Char :=
  ((cs.dropWhile pyIsSpace).reverse.dropWhile pyIsSpace).reverse

/-- Python `str.split(sep)` for a one-character separator: splitting the
empty string yields `[""]`, and every separator occurrence produces a
field. -/
def splitOnChar (sep : Char) : List Char → List (List Char)
  | [] => [[]]
  | c :: rest =>
      let r := splitOnChar sep rest
      if c = sep then [] :: r
      else
        match r with
        | [] => [[c]]
        | h :: t => (c :: h) :: t

/-- One object returned by `list_objects_v2` together with its body. -/
structure S3Obj where
  key : String
  content : String
deriving DecidableEq

/-- `[obj for obj in response.Contents if not obj.Key.endswith('/')]`
(folder markers excluded); `endswith('/')` checks the last character. -/
def endsWithSlash (s : String) : Bool :=
  s.data.getLast? == some '/'

/-- The data files of an `S3` listing (bin/validate_and_monitor.py line 54). -/
def dataFilesOf (objects : List S3Obj) : List S3Obj :=
  objects.filter (fun o => !endsWithSlash o.key)

/-- Row count of one file in `validate_s3_data` (lines 74-79):
`rows = file_content.strip().split('\n')`, counted only when
`rows and rows[0]`, with no header subtraction. -/
def fileRowCount (content : String) : Nat :=
  let rows := splitOnChar '\n' (pyStripChars content.data)
  match rows with
  | [] => 0
  | r0 :: _ => if r0.isEmpty then 0 else rows.length

/-- `total_s3_rows` accumulated over the data files by `validate_s3_data`. -/
def total_s3_rows (objects : List S3Obj) : Nat :=
  ((dataFilesOf objects).map (fun o => fileRowCount o.content)).sum

/-- `validate_s3_data` (bin/validate_and_monitor.py lines 16-108) as a
function of the source row count and the S3 listing: returns `False` when
the listing has no `Contents`, `False` when it has no data files, and
otherwise compares the source count with the summed S3 rows.  (Per-file
read errors are caught in the source and skip the file; an error-free read
environment is modelled.) -/
def validate_s3_data (source_count : Nat) (objects : List S3Obj) : Bool :=
  if objects.isEmpty then false
  else
    if (dataFilesOf objects).isEmpty then false
    else source_count == total_s3_rows objects

/-- Row count of one file in `generate_validation_report` (line 418):
`len(rows) - 1 if ',' in rows[0] else len(rows)` — a header line is
subtracted exactly when the first row contains a comma. -/
def reportFileRowCount (content : String) : Nat :=
  let rows := splitOnChar '\n' (pyStripChars content.data)
  match rows with
  | [] => 0
  | r0 :: _ =>
      if r0.isEmpty then 0
      else if r0.contains ',' then rows.length - 1 else rows.length

/-- Target row total of `generate_validation_report`. -/
def reportTargetRows (objects : List S3Obj) : Nat :=
  ((dataFilesOf objects).map (fun o => reportFileRowCount o.content)).sum

/-- The `validation_results` record built by `generate_validation_report`
(bin/validate_and_monitor.py lines 430-438).  The floating-point
`data_completeness_percentage` field is omitted. -/
structure ValidationResults where
  status : String
  row_count_match : Bool
  source_rows : Nat
  target_rows : Nat
  row_difference : Nat
deriving DecidableEq

/-- `generate_validation_report`, restricted to its `validation_results`
output. -/
def generate_validation_results (source_count : Nat) (objects : List S3Obj) :
    ValidationResults :=
  let total := reportTargetRows objects
  let validation_passed := source_count == total
  { status := if validation_passed then "PASSED" else "FAILED"
    row_count_match := validation_passed
    source_rows := source_count
    target_rows := total
    row_difference :=
      if validation_passed then 0 else ((source_count : Int) - total).natAbs }

end Validate

/-! ## bin/deploy.py — stage runner and persistent state (claims C4, C5, C6, C9) -/

namespace Deploy

/-- `TaskStatus` (bin/deploy.py lines 42-48).  Note `FAILED` carries the
string value `"failure"` ("Match continuity.json format"). -/
inductive TaskStatus where
  | pending
  | running
  | success
  | failed
  | skipped
  | waiting
deriving DecidableEq

/-- The persisted string of each status (the `Enum` values). -/
def TaskStatus.value : TaskStatus → String
  | TaskStatus.pending => "pending"
  | TaskStatus.running => "running"
  | TaskStatus.success => "success"
  | TaskStatus.failed => "failure"
  | TaskStatus.skipped => "skipped"
  | TaskStatus.waiting => "waiting"

/-- `TaskInfo` (lines 50-57).  The wall-clock `start_time` / `end_time`
fields are omitted (opaque timestamps). -/
structure TaskInfo where
  name : String
  display_name : String
  status : TaskStatus
  error_message : Option String := none
deriving DecidableEq

/-- The fixed task dictionary of `DeploymentUI` (lines 62-67). -/
structure Tasks where
  infra : TaskInfo
  db_init : TaskInfo
  dms : TaskInfo
  validate : TaskInfo
deriving DecidableEq

/-- `self.tasks[task_name]` over the four fixed keys. -/
def Tasks.lookup (t : Tasks) (name : String) : Option TaskInfo :=
  if name = "infra" then some t.infra
  else if name = "db_init" then some t.db_init
  else if name = "dms" then some t.dms
  else if name = "validate" then some t.validate
  else none

/-- In-place update of `self.tasks[task_name]` (no-op for unknown names,
matching the `if task_name in self.tasks` guards). -/
def Tasks.set (t : Tasks) (name : String) (info : TaskInfo) : Tasks :=
  if name = "infra" then { t with infra := info }
  else if name = "db_init" then { t with db_init := info }
  else if name = "dms" then { t with dms := info }
  else if name = "validate" then { t with validate := info }
  else t

/-- `DeploymentUI.should_skip_task` (lines 212-216). -/
def should_skip_task (t : Tasks) (task_name : String) : Bool :=
  match t.lookup task_name with
  | some info => info.status == TaskStatus.success
  | none => false

/-- The `continuity.json` record written by `save_continuity_state`
(lines 177-210). -/
structure ContinuityData where
  project_name : String
  last_run : String
  region : String
  tasks : List (String × String)
deriving DecidableEq

/-- `DeploymentUI.save_continuity_state`: maps the internal task names back
to the continuity names, serializes each status with `.value`, and appends
an always-`"pending"` `cleanup` entry.  `now` is the `datetime.now()`
timestamp. -/
def save_continuity_state (t : Tasks) (region : String) (now : String) :
    ContinuityData :=
  { project_name := "AWS-DMS-Data-Ingestion"
    last_run := now
    region := region
    tasks := [("setup_infra", t.infra.status.value),
              ("init_db", t.db_init.status.value),
              ("run_dms", t.dms.status.value),
              ("validate", t.validate.status.value),
              ("cleanup", "pending")] }

/-- The `working-parameters.json` nested dict: category → key → value.
Values are `Option String` because Python callers can store `None`
(serialized as JSON `null`). -/
abbrev WorkingParams := List (String × List (String × Option String))

/-- `DeploymentUI.set_parameter` (lines 273-284): creates the category when
absent, then assigns the key unconditionally (followed by a write-through
save, which has no further observable effect here). -/
def set_parameter (wp : WorkingParams) (category key : String)
    (value : Option String) : WorkingParams :=
  setAssoc wp category (setAssoc ((getAssoc wp category).getD []) key value)

/-- `DeploymentUI.get_parameter` (lines 286-291):
`self.working_parameters.get(category, dict()).get(key, default)` with the
default left to the caller — `some v` means the key is present with stored
value `v` (itself possibly `None`). -/
def get_parameter (wp : WorkingParams) (category key : String) :
    Option (Option String) :=
  getAssoc ((getAssoc wp category).getD []) key

/-- The mutable deployment state the stage functions touch: the task
statuses and the working-parameters file.  (Log messages are not state.) -/
structure DeployState where
  tasks : Tasks
  working_parameters : WorkingParams
deriving DecidableEq

/-- `set_created_resource` (lines 297-299). -/
def set_created_resource (st : DeployState) (name : String)
    (value : Option String) : DeployState :=
  { st with working_parameters :=
      set_parameter st.working_parameters "created_resources" name value }

/-- `update_task_status` (lines 301-314): sets the status and error message
of the named task; each update is followed by `save_continuity_state`
(a file write whose content is `save_continuity_state st.tasks region now`). -/
def update_task_status (st : DeployState) (task_name : String)
    (status : TaskStatus) (error_message : Option String) : DeployState :=
  match st.tasks.lookup task_name with
  | some info =>
      let updated := { info with status := status, error_message := error_message }
      { st with tasks := st.tasks.set task_name updated }
  | none => st

/-- The static configuration built by `DeploymentManager.load_config`
(lines 430-456). -/
structure Config where
  aws_account_id : String
  aws_region : String
  bucket_name : String
  bucket_folder : String := "dms-sql-data"
  db_instance_id : String := "dms-source-sqlserver"
  db_name : String := "SRC_DB"
  table_name : String := "raw_src"
  replication_instance_id : String := "dms-replication-instance"
  source_endpoint_id : String := "sqlserver-source"
  target_endpoint_id : String := "s3-target"
  migration_task_id : String := "sqlserver-to-s3-migration"
  iam_role_name : String := "dms-s3-access-role"
deriving DecidableEq

/-- The resource-provider operations a stage can invoke (arguments elided:
the claims quantify over call occurrences). -/
inductive PCall where
  | setupRDS
  | setupS3Bucket
  | setupIAMRole
  | setupDMSVPCRole
  | setupSourceDB
  | createReplicationInstance
  | createSourceEndpoint
  | createTargetEndpoint
  | createMigrationTask
  | startMigration
  | validateS3Data
  | setupMonitoring
deriving DecidableEq

/-- Result of one stage function: the new state, the provider calls issued
in order, and whether the stage completed without raising (`ok = false`
means the exception was re-raised to the caller after the status was
persisted as failed). -/
structure StageOutcome where
  state : DeployState
  calls : List PCall
  ok : Bool
deriving DecidableEq

/-- Environment for `deploy_infrastructure`: results of the four
provider-facing helpers of bin/infra.py.  `setup_rds` returns the endpoint
together with an optional security-group id — its re-entry path
(bin/infra.py lines 180-192) returns `None` for the security group when the
existing instance reports no VPC security groups. -/
structure InfraEnv where
  setup_rds : Except String (String × Option String)
  setup_s3_bucket : Except String String
  setup_iam_role : Except String String
  setup_dms_vpc_role : Except String String

/-- `DeploymentManager.deploy_infrastructure` (bin/deploy.py lines 480-541). -/
def deploy_infrastructure (cfg : Config) (env : InfraEnv) (st : DeployState) :
    StageOutcome :=
  if should_skip_task st.tasks "infra" then { state := st, calls := [], ok := true }
  else
    let st := update_task_status st "infra" TaskStatus.running none
    match env.setup_rds with
    | Except.error e =>
        { state := update_task_status st "infra" TaskStatus.failed (some e)
          calls := [PCall.setupRDS], ok := false }
    | Except.ok (rds_endpoint, security_group_id) =>
        let st := set_created_resource st "rds_endpoint" (some rds_endpoint)
        let st := set_created_resource st "rds_instance_id" (some cfg.db_instance_id)
        let st := set_created_resource st "security_group_id" security_group_id
        match env.setup_s3_bucket with
        | Except.error e =>
            { state := update_task_status st "infra" TaskStatus.failed (some e)
              calls := [PCall.setupRDS, PCall.setupS3Bucket], ok := false }
        | Except.ok bucket_arn =>
            let st := set_created_resource st "s3_bucket_name" (some cfg.bucket_name)
            let st := set_created_resource st "s3_bucket_arn" (some bucket_arn)
            let st := set_created_resource st "s3_bucket_folder" (some cfg.bucket_folder)
            match env.setup_iam_role with
            | Except.error e =>
                { state := update_task_status st "infra" TaskStatus.failed (some e)
                  calls := [PCall.setupRDS, PCall.setupS3Bucket, PCall.setupIAMRole]
                  ok := false }
            | Except.ok role_arn =>
                let st := set_created_resource st "iam_role_arn" (some role_arn)
                let st := set_created_resource st "iam_role_name" (some cfg.iam_role_name)
                match env.setup_dms_vpc_role with
                | Except.error e =>
                    { state := update_task_status st "infra" TaskStatus.failed (some e)
                      calls := [PCall.setupRDS, PCall.setupS3Bucket,
                                PCall.setupIAMRole, PCall.setupDMSVPCRole]
                      ok := false }
                | Except.ok dms_vpc_role_arn =>
                    let st := set_created_resource st "dms_vpc_role_arn"
                        (some dms_vpc_role_arn)
                    { state := update_task_status st "infra" TaskStatus.success none
                      calls := [PCall.setupRDS, PCall.setupS3Bucket,
                                PCall.setupIAMRole, PCall.setupDMSVPCRole]
                      ok := true }

/-- `DeploymentManager.initialize_database` (lines 543-568); the provider
work is `setup_source_db` from bin/db_init.py. -/
def initialize_database (env : Except String Unit) (st : DeployState) :
    StageOutcome :=
  if should_skip_task st.tasks "db_init" then { state := st, calls := [], ok := true }
  else
    let st := update_task_status st "db_init" TaskStatus.running none
    match env with
    | Except.error e =>
        { state := update_task_status st "db_init" TaskStatus.failed (some e)
          calls := [PCall.setupSourceDB], ok := false }
    | Except.ok _ =>
        { state := update_task_status st "db_init" TaskStatus.success none
          calls := [PCall.setupSourceDB], ok := true }

/-- Environment for `setup_dms_migration`: results of the bin/dms.py
helpers.  `start_migration` returns a Boolean (its internal failures are
caught and become `False`). -/
structure DMSEnv where
  create_replication_instance : Except String String
  create_source_endpoint : Except String String
  create_target_endpoint : Except String String
  create_migration_task : Except String String
  start_migration : Except String Bool

/-- `DeploymentManager.setup_dms_migration` (lines 570-643). -/
def setup_dms_migration (cfg : Config) (env : DMSEnv) (st : DeployState) :
    StageOutcome :=
  if should_skip_task st.tasks "dms" then { state := st, calls := [], ok := true }
  else
    let st := update_task_status st "dms" TaskStatus.running none
    match env.create_replication_instance with
    | Except.error e =>
        { state := update_task_status st "dms" TaskStatus.failed (some e)
          calls := [PCall.createReplicationInstance], ok := false }
    | Except.ok replication_instance_arn =>
        let st := set_created_resource st "replication_instance_arn"
            (some replication_instance_arn)
        let st := set_created_resource st "replication_instance_id"
            (some cfg.replication_instance_id)
        match env.create_source_endpoint with
        | Except.error e =>
            { state := update_task_status st "dms" TaskStatus.failed (some e)
              calls := [PCall.createReplicationInstance, PCall.createSourceEndpoint]
              ok := false }
        | Except.ok source_endpoint_arn =>
            let st := set_created_resource st "source_endpoint_arn"
                (some source_endpoint_arn)
            let st := set_created_resource st "source_endpoint_id"
                (some cfg.source_endpoint_id)
            match env.create_target_endpoint with
            | Except.error e =>
                { state := update_task_status st "dms" TaskStatus.failed (some e)
                  calls := [PCall.createReplicationInstance,
                            PCall.createSourceEndpoint, PCall.createTargetEndpoint]
                  ok := false }
            | Except.ok target_endpoint_arn =>
                let st := set_created_resource st "target_endpoint_arn"
                    (some target_endpoint_arn)
                let st := set_created_resource st "target_endpoint_id"
                    (some cfg.target_endpoint_id)
                match env.create_migration_task with
                | Except.error e =>
                    { state := update_task_status st "dms" TaskStatus.failed (some e)
                      calls := [PCall.createReplicationInstance,
                                PCall.createSourceEndpoint,
                                PCall.createTargetEndpoint, PCall.createMigrationTask]
                      ok := false }
                | Except.ok _ =>
                    let migration_task_arn :=
                      "arn:aws:dms:" ++ cfg.aws_region ++ ":" ++ cfg.aws_account_id
                        ++ ":task:" ++ cfg.migration_task_id
                    let st := set_created_resource st "migration_task_arn"
                        (some migration_task_arn)
                    let st := set_created_resource st "migration_task_id"
                        (some cfg.migration_task_id)
                    match env.start_migration with
                    | Except.error e =>
                        { state := update_task_status st "dms" TaskStatus.failed (some e)
                          calls := [PCall.createReplicationInstance,
                                    PCall.createSourceEndpoint,
                                    PCall.createTargetEndpoint,
                                    PCall.createMigrationTask, PCall.startMigration]
                          ok := false }
                    | Except.ok migration_success =>
                        if migration_success then
                          { state := update_task_status st "dms" TaskStatus.success none
                            calls := [PCall.createReplicationInstance,
                                      PCall.createSourceEndpoint,
                                      PCall.createTargetEndpoint,
                                      PCall.createMigrationTask, PCall.startMigration]
                            ok := true }
                        else
                          { state := update_task_status st "dms" TaskStatus.failed
                              (some "Migration task failed to complete successfully")
                            calls := [PCall.createReplicationInstance,
                                      PCall.createSourceEndpoint,
                                      PCall.createTargetEndpoint,
                                      PCall.createMigrationTask, PCall.startMigration]
                            ok := false }

/-- Environment for `validate_deployment`: the result of `validate_s3_data`
(a Boolean) and of `setup_monitoring`. -/
structure ValidateEnv where
  validate_s3_data : Except String Bool
  setup_monitoring : Except String Unit

/-- `DeploymentManager.validate_deployment` (lines 645-687).  Note the
absence of a `should_skip_task` check: "Validation always runs regardless
of previous state". -/
def validate_deployment (env : ValidateEnv) (st : DeployState) : StageOutcome :=
  let st := update_task_status st "validate" TaskStatus.running none
  match env.validate_s3_data with
  | Except.error e =>
      { state := update_task_status st "validate" TaskStatus.failed (some e)
        calls := [PCall.validateS3Data], ok := false }
  | Except.ok validation_result =>
      if validation_result then
        match env.setup_monitoring with
        | Except.error e =>
            { state := update_task_status st "validate" TaskStatus.failed (some e)
              calls := [PCall.validateS3Data, PCall.setupMonitoring], ok := false }
        | Except.ok _ =>
            { state := update_task_status st "validate" TaskStatus.success none
              calls := [PCall.validateS3Data, PCall.setupMonitoring], ok := true }
      else
        { state := update_task_status st "validate" TaskStatus.failed
            (some "Data validation failed - row counts don't match")
          calls := [PCall.validateS3Data], ok := false }

end Deploy

/-! ## bin/unwind.py — teardown coordinator (claims C1, C2, C3, C10) -/

namespace Unwind

/-- The `created_resources` map of `working-parameters.json`, as read by the
unwind (`self.params.get('created_resources', dict())`).  Values are
`Option String` because the deployment can store `null`. -/
abbrev Resources := List (String × Option String)

/-- `resources.get(key)`: `None` both when the key is absent and when it is
stored as `null`. -/
def dictGet (res : Resources) (key : String) : Option String :=
  (getAssoc res key).getD none

/-- `resources.get(key)` followed by the Python truthiness test the unwind
steps perform (`if not value: skip`): `none` when absent, `null` or empty. -/
def resGet (res : Resources) (key : String) : Option String :=
  match dictGet res key with
  | some s => if s.isEmpty then none else some s
  | none => none

/-- The AWS calls the unwind can issue.  `describe`/`list`/waiter calls are
read-only; the rest are destructive. -/
inductive UCall where
  | deleteAlarm (name : String)
  | describeReplicationTasks
  | stopReplicationTask (arn : String)
  | deleteReplicationTask (arn : String)
  | deleteEndpoint (arn : String)
  | deleteReplicationInstance (arn : String)
  | waitReplicationInstanceDeleted
  | dropDatabase (name : String)
  | deleteDBInstance (id : String)
  | waitDBInstanceDeleted
  | listObjects (bucket : String)
  | deleteObjects (bucket : String)
  | listObjectVersions (bucket : String)
  | deleteBucket (bucket : String)
  | listAttachedRolePolicies (role : String)
  | detachRolePolicy (role : String) (policyArn : String)
  | deleteRole (role : String)
  | deleteSecurityGroup (groupId : String)
deriving DecidableEq

/-- A call is destructive when it deletes, stops or drops a resource. -/
def UCall.isDestructive : UCall → Bool
  | UCall.deleteAlarm _ => true
  | UCall.describeReplicationTasks => false
  | UCall.stopReplicationTask _ => true
  | UCall.deleteReplicationTask _ => true
  | UCall.deleteEndpoint _ => true
  | UCall.deleteReplicationInstance _ => true
  | UCall.waitReplicationInstanceDeleted => false
  | UCall.dropDatabase _ => true
  | UCall.deleteDBInstance _ => true
  | UCall.waitDBInstanceDeleted => false
  | UCall.listObjects _ => false
  | UCall.deleteObjects _ => true
  | UCall.listObjectVersions _ => false
  | UCall.deleteBucket _ => true
  | UCall.listAttachedRolePolicies _ => false
  | UCall.detachRolePolicy _ _ => true
  | UCall.deleteRole _ => true
  | UCall.deleteSecurityGroup _ => true

/-- `ClientError` codes distinguished by the unwind handlers. -/
inductive ErrCode where
  | resourceNotFound
  | invalidResourceState
  | other
deriving DecidableEq

/-- One replication task returned by `describe_replication_tasks`. -/
structure TaskDesc where
  arn : String
  id : String
  status : String
deriving DecidableEq

/-- One `describe_replication_tasks` result inside the stop-wait loop of
`_delete_single_task`. -/
inductive PollRes where
  /-- the task is no longer in the response -/
  | gone
  /-- the task with its current status -/
  | status (s : String)
  /-- the describe call raised a `ClientError` (caught by the surrounding
  `except`, ending the wait) -/
  | err
deriving DecidableEq

/-- Environment of one unwind run: the operator input, the progress-marker
file, and the provider responses/outcomes each step observes.  Outcome
fields are `none` for success and `some code` for a raised `ClientError`. -/
structure UEnv where
  userInput : String
  /-- `unwind-progress.json`: `none` when absent or unreadable, `some b`
  when it parses with `unwind_completed = b` -/
  progress : Option Bool
  now : String
  markerWriteOk : Bool
  describeAllTasks : Except Unit (List TaskDesc)
  describeTaskByArn : String → Except ErrCode (Option TaskDesc)
  stopTaskOutcome : String → Option ErrCode
  pollTask : String → Nat → PollRes
  deleteTaskOutcome : String → Option ErrCode
  deleteReplInstanceOutcome : Option ErrCode
  auroraPassword : Option String
  dbConnectOk : Bool
  deleteRdsOutcome : Option ErrCode
  s3ListError : Option ErrCode
  objectPages : List (List String)
  versionPages : List (List String)
  listPoliciesResult : Except ErrCode (List String)
  vpcDetachOutcome : Option ErrCode

/-- `UnwindManager.confirm_destruction` (bin/unwind.py lines 67-85): `False`
when `created_resources` is empty (no prompt shown), otherwise `True`
exactly when the typed response equals `"DESTROY"`. -/
def confirm_destruction (res : Resources) (response : String) : Bool :=
  if res.isEmpty then false else response == "DESTROY"

/-- The three alarm names of `delete_cloudwatch_alarms` (lines 98-102). -/
def alarm_names (task_id : String) : List String :=
  ["DMS-Task-Failure-" ++ task_id,
   "DMS-High-Replication-Lag-" ++ task_id,
   "DMS-Low-Throughput-" ++ task_id]

/-- `delete_cloudwatch_alarms` (lines 87-118): skipped without a migration
task id; otherwise one `delete_alarms` call per name, each with its own
error handler (failures only logged). -/
def delete_cloudwatch_alarms (res : Resources) : List UCall :=
  match resGet res "migration_task_id" with
  | none => []
  | some task_id => (alarm_names task_id).map UCall.deleteAlarm

/-- The statuses on which `_delete_single_task` issues a stop (line 175). -/
def stopRunningStatuses : List String := ["running", "starting", "resuming", "modifying"]

/-- The statuses on which the stop-wait loop breaks (line 198). -/
def stoppedStatuses : List String := ["stopped", "failed", "ready"]

/-- The stop-wait loop of `_delete_single_task` (lines 186-205):
`max_wait_time = 300`, `wait_interval = 10`, hence at most 30 iterations,
each issuing one describe; it ends early when the task reaches a terminal
status, disappears, or the describe raises (caught by the surrounding
`except`). -/
def waitForStop (env : UEnv) (arn : String) : Nat → Nat → List UCall
  | 0, _ => []
  | fuel + 1, i =>
      match env.pollTask arn i with
      | PollRes.err => [UCall.describeReplicationTasks]
      | PollRes.gone => [UCall.describeReplicationTasks]
      | PollRes.status s =>
          if s ∈ stoppedStatuses then [UCall.describeReplicationTasks]
          else UCall.describeReplicationTasks :: waitForStop env arn fuel (i + 1)

/-- `_delete_single_task` (lines 161-223): describe the task; if it is in a
running-like state, stop it and wait; then delete it.  Returns the calls
issued and `some ErrCode.other` when the final handler re-raises (`else:
... raise`, line 223). -/
def delete_single_task (env : UEnv) (arn : String) : List UCall × Option ErrCode :=
  match env.describeTaskByArn arn with
  | Except.error e =>
      ([UCall.describeReplicationTasks],
       if e = ErrCode.other then some ErrCode.other else none)
  | Except.ok found =>
      let stopCalls :=
        match found with
        | some task =>
            if task.status ∈ stopRunningStatuses then
              match env.stopTaskOutcome arn with
              | some _ => [UCall.stopReplicationTask arn]
              | none => UCall.stopReplicationTask arn :: waitForStop env arn 30 0
            else []
        | none => []
      (UCall.describeReplicationTasks :: stopCalls
         ++ [UCall.deleteReplicationTask arn],
       match env.deleteTaskOutcome arn with
       | none => none
       | some e => if e = ErrCode.other then some ErrCode.other else none)

/-- The `for task in all_tasks` loop of `delete_dms_migration_task`
(lines 137-142): a `ClientError` re-raised by `_delete_single_task` aborts
the remaining iterations (it is caught at line 149). -/
def loopDeleteTasks (env : UEnv) : List TaskDesc → List UCall
  | [] => []
  | t :: rest =>
      match delete_single_task env t.arn with
      | (calls, some _) => calls
      | (calls, none) => calls ++ loopDeleteTasks env rest

/-- `delete_dms_migration_task` (lines 120-159): list all replication tasks
and delete each; when the list is empty the method returns early, skipping
the parameters-file task; otherwise the task recorded in the parameters is
also tried. -/
def delete_dms_migration_task (env : UEnv) (res : Resources) : List UCall :=
  match env.describeAllTasks with
  | Except.error _ =>
      UCall.describeReplicationTasks :: paramsTaskCalls env res
  | Except.ok [] => [UCall.describeReplicationTasks]
  | Except.ok (t :: ts) =>
      (UCall.describeReplicationTasks :: loopDeleteTasks env (t :: ts))
        ++ paramsTaskCalls env res
where
  /-- lines 152-156: `migration_task_arn` from the parameters, if truthy. -/
  paramsTaskCalls (env : UEnv) (res : Resources) : List UCall :=
    match resGet res "migration_task_arn" with
    | some arn => (delete_single_task env arn).1
    | none => []

/-- `delete_dms_endpoints` (lines 225-257): delete the source endpoint then
the target endpoint, each guarded by truthiness and its own handler. -/
def delete_dms_endpoints (res : Resources) : List UCall :=
  (match resGet res "source_endpoint_arn" with
   | some arn => [UCall.deleteEndpoint arn]
   | none => []) ++
  (match resGet res "target_endpoint_arn" with
   | some arn => [UCall.deleteEndpoint arn]
   | none => [])

/-- `delete_dms_replication_instance` (lines 259-294): delete the instance
then wait for the `replication_instance_deleted` waiter; the waiter runs
only when the delete call did not raise. -/
def delete_dms_replication_instance (env : UEnv) (res : Resources) : List UCall :=
  match resGet res "replication_instance_arn" with
  | none => []
  | some arn =>
      match env.deleteReplInstanceOutcome with
      | none => [UCall.deleteReplicationInstance arn,
                 UCall.waitReplicationInstanceDeleted]
      | some _ => [UCall.deleteReplicationInstance arn]

/-- `delete_database` (lines 296-335): connect to the RDS endpoint and drop
`SRC_DB`; skipped without an endpoint or without `AURORA_DB_PASSWORD`; a
failed connection issues no drop. -/
def delete_database (env : UEnv) (res : Resources) : List UCall :=
  match resGet res "rds_endpoint" with
  | none => []
  | some _ =>
      if truthy env.auroraPassword then
        if env.dbConnectOk then [UCall.dropDatabase "SRC_DB"] else []
      else []

/-- `delete_rds_instance` (lines 337-373): delete the DB instance then wait
for the `db_instance_deleted` waiter (only when the delete did not raise). -/
def delete_rds_instance (env : UEnv) (res : Resources) : List UCall :=
  match resGet res "rds_instance_id" with
  | none => []
  | some instance_id =>
      match env.deleteRdsOutcome with
      | none => [UCall.deleteDBInstance instance_id, UCall.waitDBInstanceDeleted]
      | some _ => [UCall.deleteDBInstance instance_id]

/-- `delete_s3_bucket` (lines 375-430): empty the bucket (one
`delete_objects` per non-empty page of objects, then of versions and delete
markers) and delete it.  A `ClientError` from the listing is caught and
truncates the sequence at the first call. -/
def delete_s3_bucket (env : UEnv) (res : Resources) : List UCall :=
  match resGet res "s3_bucket_name" with
  | none => []
  | some bucket =>
      match env.s3ListError with
      | some _ => [UCall.listObjects bucket]
      | none =>
          UCall.listObjects bucket
            :: (env.objectPages.filterMap (fun page =>
                  if page.isEmpty then none else some (UCall.deleteObjects bucket)))
            ++ [UCall.listObjectVersions bucket]
            ++ (env.versionPages.filterMap (fun page =>
                  if page.isEmpty then none else some (UCall.deleteObjects bucket)))
            ++ [UCall.deleteBucket bucket]

/-- The managed policy detached from `dms-vpc-role` (line 466). -/
def dmsVpcPolicyArn : String :=
  "arn:aws:iam::aws:policy/service-role/AmazonDMSVPCManagementRole"

/-- `delete_iam_roles` (lines 432-477): for the recorded role, list its
attached policies, detach each, and delete the role (a listing error aborts
that block); then always try to detach and delete `dms-vpc-role` (the
delete runs only when the detach did not raise). -/
def delete_iam_roles (env : UEnv) (res : Resources) : List UCall :=
  (match resGet res "iam_role_name" with
   | none => []
   | some role_name =>
       match env.listPoliciesResult with
       | Except.error _ => [UCall.listAttachedRolePolicies role_name]
       | Except.ok policies =>
           UCall.listAttachedRolePolicies role_name
             :: policies.map (fun p => UCall.detachRolePolicy role_name p)
             ++ [UCall.deleteRole role_name]) ++
  (match env.vpcDetachOutcome with
   | some _ => [UCall.detachRolePolicy "dms-vpc-role" dmsVpcPolicyArn]
   | none => [UCall.detachRolePolicy "dms-vpc-role" dmsVpcPolicyArn,
              UCall.deleteRole "dms-vpc-role"])

/-- `delete_security_group` (lines 479-503). -/
def delete_security_group (res : Resources) : List UCall :=
  match resGet res "security_group_id" with
  | none => []
  | some sg_id => [UCall.deleteSecurityGroup sg_id]

/-- The `unwind-progress.json` record written by `save_unwind_progress`
(lines 505-528). -/
structure UnwindProgress where
  unwind_completed : Bool
  completion_time : String
  /-- verbatim copy of the deployment parameters (modelled by the
  `created_resources` map, the part the unwind consults) -/
  original_deployment_params : Resources
  status : String
deriving DecidableEq

/-- `save_unwind_progress`: the marker content is fixed — completed, with a
success status string — regardless of what the steps encountered. -/
def save_unwind_progress (res : Resources) (now : String) : UnwindProgress :=
  { unwind_completed := true
    completion_time := now
    original_deployment_params := res
    status := "All AWS resources successfully destroyed" }

/-- Result of one `run_unwind` invocation: the returned Boolean, the AWS
calls issued in order, and the progress-marker write (if any). -/
structure UnwindOutcome where
  result : Bool
  calls : List UCall
  marker : Option UnwindProgress
deriving DecidableEq

/-- `UnwindManager.run_unwind` (lines 530-592).  If the progress marker
exists with `unwind_completed` truthy, return success immediately (no
prompt, no calls).  Then require confirmation; a refusal returns `False`
with no calls.  Otherwise run the nine steps in their fixed order — each
step catches its own exceptions, so the sequence always completes — write
the completion marker, and return `True`. -/
def run_unwind (env : UEnv) (res : Resources) : UnwindOutcome :=
  match env.progress with
  | some true => { result := true, calls := [], marker := none }
  | _ =>
      if confirm_destruction res env.userInput then
        { result := true
          calls :=
            delete_cloudwatch_alarms res
              ++ delete_dms_migration_task env res
              ++ delete_dms_endpoints res
              ++ delete_dms_replication_instance env res
              ++ delete_database env res
              ++ delete_rds_instance env res
              ++ delete_s3_bucket env res
              ++ delete_iam_roles env res
              ++ delete_security_group res
          marker :=
            if env.markerWriteOk then some (save_unwind_progress res env.now)
            else none }
      else { result := false, calls := [], marker := none }

end Unwind

/-! ## Theorems -/

/-- C7: when the migration monitor observes the terminal task status
`stopped`, it returns success exactly when the stop-reason string contains
one of the allow-listed successful-completion reasons; in particular a stop
reason containing `FULL_LOAD_COMPLETED` classifies as success and one
containing `UNEXPECTED_ERROR` (and none of the allow-listed reasons)
classifies as failure, for the identical terminal status `stopped`. -/
theorem monitor_stop_reason_classification :
    (∀ (rest : List DMS.PollResult) (stopReason : String),
        DMS.monitor_migration_completion
            (DMS.PollResult.task "stopped" stopReason :: rest)
          = DMS.classifyStoppedReason stopReason)
    ∧ DMS.classifyStoppedReason "Stop Reason FULL_LOAD_COMPLETED" = true
    ∧ DMS.classifyStoppedReason "Stop Reason UNEXPECTED_ERROR" = false := by
  refine ⟨fun rest stopReason => ?_, by decide, by decide⟩
  simp [DMS.monitor_migration_completion]

namespace Validate

/-- A sample CSV data row without a comma (the digits `42`). -/
def sampleRow : List Char := ['4', '2']

/-- `n` data rows joined by newlines (the shape of a DMS CSV export body). -/
def mkLinesChars : Nat → List Char
  | 0 => []
  | 1 => sampleRow
  | n + 2 => sampleRow ++ '\n' :: mkLinesChars (n + 1)

theorem splitOnChar_mkLines (n : Nat) :
    splitOnChar '\n' (mkLinesChars (n + 1)) = List.replicate (n + 1) sampleRow := by
  induction n with
  | zero => rfl
  | succ m ih =>
      show splitOnChar '\n' ('4' :: '2' :: '\n' :: mkLinesChars (m + 1)) = _
      simp only [splitOnChar, ih]
      simp only [if_neg (show ¬('4' = '\n') by decide),
                 if_neg (show ¬('2' = '\n') by decide),
                 if_pos (show '\n' = '\n' from rfl)]
      simp [sampleRow, List.replicate_succ]

theorem mkLines_head (n : Nat) :
    ∃ t, mkLinesChars (n + 1) = '4' :: t := by
  cases n with
  | zero => exact ⟨['2'], rfl⟩
  | succ m => exact ⟨'2' :: '\n' :: mkLinesChars (m + 1), rfl⟩

theorem mkLines_reverse (n : Nat) :
    ∃ t, (mkLinesChars (n + 1)).reverse = '2' :: t := by
  induction n with
  | zero => exact ⟨['4'], rfl⟩
  | succ m ih =>
      obtain ⟨t, ht⟩ := ih
      refine ⟨t ++ ['\n', '2', '4'], ?_⟩
      show ('4' :: '2' :: '\n' :: mkLinesChars (m + 1)).reverse = _
      simp [ht]

theorem pyStrip_mkLines (n : Nat) :
    pyStripChars (mkLinesChars (n + 1)) = mkLinesChars (n + 1) := by
  obtain ⟨t, ht⟩ := mkLines_head n
  obtain ⟨r, hr⟩ := mkLines_reverse n
  unfold pyStripChars
  rw [ht]
  rw [List.dropWhile_cons_of_neg (by decide : ¬ (pyIsSpace '4' = true))]
  rw [← ht, hr]
  rw [List.dropWhile_cons_of_neg (by decide : ¬ (pyIsSpace '2' = true))]
  rw [← hr, List.reverse_reverse]

theorem fileRowCount_mkLines (n : Nat) :
    fileRowCount (String.mk (mkLinesChars (n + 1))) = n + 1 := by
  unfold fileRowCount
  show (match splitOnChar '\n' (pyStripChars (mkLinesChars (n + 1))) with
        | [] => 0
        | r0 :: _ =>
            if r0.isEmpty then 0
            else (splitOnChar '\n' (pyStripChars (mkLinesChars (n + 1)))).length) = n + 1
  rw [pyStrip_mkLines, splitOnChar_mkLines, List.replicate_succ]
  simp [sampleRow]

theorem reportFileRowCount_mkLines (n : Nat) :
    reportFileRowCount (String.mk (mkLinesChars (n + 1))) = n + 1 := by
  unfold reportFileRowCount
  show (match splitOnChar '\n' (pyStripChars (mkLinesChars (n + 1))) with
        | [] => 0
        | r0 :: _ =>
            if r0.isEmpty then 0
            else if r0.contains ',' then
              (splitOnChar '\n' (pyStripChars (mkLinesChars (n + 1)))).length - 1
            else (splitOnChar '\n' (pyStripChars (mkLinesChars (n + 1)))).length) = n + 1
  rw [pyStrip_mkLines, splitOnChar_mkLines, List.replicate_succ]
  simp [sampleRow]

/-- An S3 listing holding one migrated CSV data file of `n` rows. -/
def scenarioObjects (n : Nat) : List S3Obj :=
  [{ key := "dms-sql-data/LOAD00000001.csv", content := String.mk (mkLinesChars n) }]

theorem dataFilesOf_scenario (n : Nat) :
    dataFilesOf (scenarioObjects n) = scenarioObjects n := by
  simp [dataFilesOf, scenarioObjects, endsWithSlash]

theorem total_s3_rows_scenario (n : Nat) :
    total_s3_rows (scenarioObjects (n + 1)) = n + 1 := by
  unfold total_s3_rows
  rw [dataFilesOf_scenario]
  simp [scenarioObjects, fileRowCount_mkLines]

theorem reportTargetRows_scenario (n : Nat) :
    reportTargetRows (scenarioObjects (n + 1)) = n + 1 := by
  unfold reportTargetRows
  rw [dataFilesOf_scenario]
  simp [scenarioObjects, reportFileRowCount_mkLines]

end Validate

/-- C8 counterexample: the claimed "if and only if" fails at the concrete
input of an empty S3 listing with source row count 0 — the source count
(0) equals the total rows counted across all (zero) target files, yet
`validate_s3_data` returns `False` because it rejects a listing with no
files before comparing counts. -/
theorem validate_iff_counterexample :
    Validate.validate_s3_data 0 [] = false ∧ Validate.total_s3_rows [] = 0 := by
  exact ⟨rfl, rfl⟩

/-- C8 (amended): provided the listing contains at least one data file,
validation passes exactly when the source row count equals the total rows
counted across the target S3 files; in particular source 1000 against
target files summing to 1000 rows passes, and the validation report for
source 1000 against target 998 is `FAILED` with both counts reported and a
row difference of 2. -/
theorem validate_rowcount_amended :
    (∀ (source_count : Nat) (objects : List Validate.S3Obj),
        Validate.dataFilesOf objects ≠ [] →
        (Validate.validate_s3_data source_count objects = true ↔
          source_count = Validate.total_s3_rows objects)) ∧
    Validate.validate_s3_data 1000 (Validate.scenarioObjects 1000) = true ∧
    (Validate.generate_validation_results 1000 (Validate.scenarioObjects 998)).status
        = "FAILED" ∧
    (Validate.generate_validation_results 1000 (Validate.scenarioObjects 998)).source_rows
        = 1000 ∧
    (Validate.generate_validation_results 1000 (Validate.scenarioObjects 998)).target_rows
        = 998 ∧
    (Validate.generate_validation_results 1000 (Validate.scenarioObjects 998)).row_difference
        = 2 := by
  have htotal : Validate.total_s3_rows (Validate.scenarioObjects 1000) = 1000 :=
    Validate.total_s3_rows_scenario 999
  have hreport : Validate.reportTargetRows (Validate.scenarioObjects 998) = 998 :=
    Validate.reportTargetRows_scenario 997
  refine ⟨?_, ?_, ?_, ?_, ?_, ?_⟩
  · intro source_count objects hfiles
    have hobj : objects ≠ [] := by
      intro h
      apply hfiles
      rw [h]
      rfl
    unfold Validate.validate_s3_data
    rw [if_neg (by simpa [List.isEmpty_iff] using hobj),
        if_neg (by simpa [List.isEmpty_iff] using hfiles)]
    exact beq_iff_eq
  · unfold Validate.validate_s3_data
    rw [if_neg (by simp [Validate.scenarioObjects]),
        if_neg (by rw [Validate.dataFilesOf_scenario]; simp [Validate.scenarioObjects])]
    rw [htotal]
    decide
  · simp [Validate.generate_validation_results, hreport]
  · simp [Validate.generate_validation_results]
  · simp [Validate.generate_validation_results, hreport]
  · simp [Validate.generate_validation_results, hreport]

/-- Witness for the amended C8 theorem at a concrete input: a listing with
one three-row data file and source count 3. -/
theorem validate_rowcount_amended_witness :
    Validate.dataFilesOf (Validate.scenarioObjects 3) ≠ [] ∧
    (Validate.validate_s3_data 3 (Validate.scenarioObjects 3) = true ↔
      3 = Validate.total_s3_rows (Validate.scenarioObjects 3)) := by
  refine ⟨by decide, validate_rowcount_amended.1 3 _ (by decide)⟩

namespace Deploy

/-- The status strings `TaskStatus` can serialize to. -/
def continuityStatusStrings : List String :=
  ["pending", "running", "success", "failure", "skipped", "waiting"]

theorem statusValue_mem (s : TaskStatus) :
    continuityStatusStrings.contains s.value = true := by
  cases s <;> rfl

end Deploy

/-- C9 counterexample: with the `infra` stage failed, the persisted record
maps `setup_infra` to the string `"failure"` — which is not in the claimed
closed set `pending|running|success|failed|skipped|waiting` (the enum value
for the failed status is `"failure"`, chosen to match the continuity.json
format). -/
theorem continuity_failed_string_counterexample :
    getAssoc (Deploy.save_continuity_state
        { infra := { name := "infra", display_name := "infra",
                     status := Deploy.TaskStatus.failed, error_message := none }
          db_init := { name := "db_init", display_name := "db_init",
                       status := Deploy.TaskStatus.pending, error_message := none }
          dms := { name := "dms", display_name := "dms",
                   status := Deploy.TaskStatus.pending, error_message := none }
          validate := { name := "validate", display_name := "validate",
                        status := Deploy.TaskStatus.pending, error_message := none } }
        "us-east-1" "2024-01-01T00:00:00").tasks "setup_infra" = some "failure" ∧
    ¬ ("failure" ∈ ["pending", "running", "success", "failed", "skipped", "waiting"]) := by
  exact ⟨rfl, by decide⟩

/-- C9 (amended): every write of the persisted stage-status file produces a
record whose tasks map sends each fixed stage name to one of the status
strings of the closed set pending|running|success|failure|skipped|waiting
(the failed status serializes as `"failure"`), and always contains a
`cleanup` entry defaulted to `"pending"`. -/
theorem continuity_statuses_amended :
    ∀ (t : Deploy.Tasks) (region now : String),
      ((Deploy.save_continuity_state t region now).tasks.all
          (fun p => Deploy.continuityStatusStrings.contains p.2)) = true ∧
      getAssoc (Deploy.save_continuity_state t region now).tasks "cleanup"
        = some "pending" := by
  intro t region now
  constructor
  · simp only [Deploy.save_continuity_state, List.all_cons, List.all_nil,
               Deploy.statusValue_mem]
    decide
  · simp [Deploy.save_continuity_state, getAssoc]

namespace Deploy

/-- A task dictionary with all four stages pending. -/
def pendingTasks : Tasks :=
  { infra := { name := "infra", display_name := "infra",
               status := TaskStatus.pending, error_message := none }
    db_init := { name := "db_init", display_name := "db_init",
                 status := TaskStatus.pending, error_message := none }
    dms := { name := "dms", display_name := "dms",
             status := TaskStatus.pending, error_message := none }
    validate := { name := "validate", display_name := "validate",
                  status := TaskStatus.pending, error_message := none } }

/-- A task dictionary with all four stages already successful (the state
restored from continuity.json after a complete run). -/
def successTasks : Tasks :=
  { infra := { name := "infra", display_name := "infra",
               status := TaskStatus.success, error_message := none }
    db_init := { name := "db_init", display_name := "db_init",
                 status := TaskStatus.success, error_message := none }
    dms := { name := "dms", display_name := "dms",
             status := TaskStatus.success, error_message := none }
    validate := { name := "validate", display_name := "validate",
                  status := TaskStatus.success, error_message := none } }

/-- A concrete configuration (account 123456789012, us-east-1). -/
def exampleConfig : Config :=
  { aws_account_id := "123456789012"
    aws_region := "us-east-1"
    bucket_name := "dms-data-ingestion-123456789012" }

/-- Working parameters holding a previously recorded non-empty
`security_group_id`. -/
def c5Params : WorkingParams :=
  [("created_resources", [("security_group_id", some "sg-0a1b2c3d4e5f6a7b8")])]

/-- Deployment state for the C5 scenario: `infra` not yet successful in
this run, but a non-empty security-group record from an earlier run. -/
def c5State : DeployState :=
  { tasks := pendingTasks, working_parameters := c5Params }

/-- Provider environment for the C5 scenario: `setup_rds` takes its
re-entry path (bin/infra.py lines 180-192) — the instance already exists
and is available, but reports no VPC security groups, so the returned
security-group id is `None`; the other helpers succeed. -/
def c5Env : InfraEnv :=
  { setup_rds := Except.ok
      ("dms-source-sqlserver.cabcdefghijk.us-east-1.rds.amazonaws.com", none)
    setup_s3_bucket := Except.ok "arn:aws:s3:::dms-data-ingestion-123456789012"
    setup_iam_role := Except.ok "arn:aws:iam::123456789012:role/dms-s3-access-role"
    setup_dms_vpc_role := Except.ok "arn:aws:iam::123456789012:role/dms-vpc-role" }

end Deploy

/-- C5 counterexample: at this concrete input the `security_group_id`
resource record starts as the non-empty string `sg-0a1b2c3d4e5f6a7b8`, and
after `deploy_infrastructure` re-runs the infra stage (with `setup_rds`
taking its existing-instance path and returning `None` for the security
group) the record has been overwritten with the empty (null) value —
`set_parameter` performs no non-empty guard. -/
theorem resource_record_overwritten_counterexample :
    Deploy.get_parameter Deploy.c5State.working_parameters
        "created_resources" "security_group_id" = some (some "sg-0a1b2c3d4e5f6a7b8") ∧
    Deploy.get_parameter
        (Deploy.deploy_infrastructure Deploy.exampleConfig Deploy.c5Env
            Deploy.c5State).state.working_parameters
        "created_resources" "security_group_id" = some none := by
  exact ⟨rfl, by decide⟩

/-- C5 (amended): resource records are not monotonic by construction —
`set_parameter` stores exactly the caller-supplied value, unconditionally
replacing any previous record (so a non-empty record survives only as long
as every later write for that key supplies a non-empty value; the
`setup_rds` re-entry path can supply an empty one). -/
theorem set_parameter_overwrites_amended :
    ∀ (wp : Deploy.WorkingParams) (category key : String) (value : Option String),
      Deploy.get_parameter (Deploy.set_parameter wp category key value) category key
        = some value := by
  intro wp category key value
  unfold Deploy.set_parameter Deploy.get_parameter
  rw [getAssoc_setAssoc]
  simp [getAssoc_setAssoc]

/-- C4: for each provisioning stage in (infra, db_init, dms), if the
stage's persisted status already equals success when the stage runner is
entered, the stage function returns immediately: the state is unchanged (no
stage status and no resource record mutated), no provider call is issued,
and the stage reports success. -/
theorem provisioning_stage_skip_on_success :
    ∀ (cfg : Deploy.Config) (envI : Deploy.InfraEnv) (envD : Except String Unit)
      (envM : Deploy.DMSEnv) (st : Deploy.DeployState),
      (st.tasks.infra.status = Deploy.TaskStatus.success →
        Deploy.deploy_infrastructure cfg envI st
          = { state := st, calls := [], ok := true }) ∧
      (st.tasks.db_init.status = Deploy.TaskStatus.success →
        Deploy.initialize_database envD st
          = { state := st, calls := [], ok := true }) ∧
      (st.tasks.dms.status = Deploy.TaskStatus.success →
        Deploy.setup_dms_migration cfg envM st
          = { state := st, calls := [], ok := true }) := by
  intro cfg envI envD envM st
  refine ⟨fun h => ?_, fun h => ?_, fun h => ?_⟩
  · unfold Deploy.deploy_infrastructure
    rw [if_pos (by simp [Deploy.should_skip_task, Deploy.Tasks.lookup, h])]
  · unfold Deploy.initialize_database
    rw [if_pos (by simp [Deploy.should_skip_task, Deploy.Tasks.lookup, h])]
  · unfold Deploy.setup_dms_migration
    rw [if_pos (by simp [Deploy.should_skip_task, Deploy.Tasks.lookup, h])]

/-- Witness for C4 at a concrete input: all three provisioning stages are
already successful, and each stage function returns the state unchanged
with zero provider calls. -/
theorem provisioning_stage_skip_on_success_witness :
    Deploy.successTasks.infra.status = Deploy.TaskStatus.success ∧
    Deploy.successTasks.db_init.status = Deploy.TaskStatus.success ∧
    Deploy.successTasks.dms.status = Deploy.TaskStatus.success ∧
    Deploy.deploy_infrastructure Deploy.exampleConfig Deploy.c5Env
        { tasks := Deploy.successTasks, working_parameters := [] }
      = { state := { tasks := Deploy.successTasks, working_parameters := [] },
          calls := [], ok := true } ∧
    Deploy.initialize_database (Except.ok ())
        { tasks := Deploy.successTasks, working_parameters := [] }
      = { state := { tasks := Deploy.successTasks, working_parameters := [] },
          calls := [], ok := true } ∧
    Deploy.setup_dms_migration Deploy.exampleConfig
        { create_replication_instance := Except.ok "arn:rep"
          create_source_endpoint := Except.ok "arn:src"
          create_target_endpoint := Except.ok "arn:tgt"
          create_migration_task := Except.ok "arn:task"
          start_migration := Except.ok true }
        { tasks := Deploy.successTasks, working_parameters := [] }
      = { state := { tasks := Deploy.successTasks, working_parameters := [] },
          calls := [], ok := true } := by
  refine ⟨rfl, rfl, rfl, ?_, ?_, ?_⟩
  · exact (provisioning_stage_skip_on_success Deploy.exampleConfig Deploy.c5Env
      (Except.ok ()) { create_replication_instance := Except.ok "arn:rep"
                       create_source_endpoint := Except.ok "arn:src"
                       create_target_endpoint := Except.ok "arn:tgt"
                       create_migration_task := Except.ok "arn:task"
                       start_migration := Except.ok true }
      { tasks := Deploy.successTasks, working_parameters := [] }).1 rfl
  · exact (provisioning_stage_skip_on_success Deploy.exampleConfig Deploy.c5Env
      (Except.ok ()) { create_replication_instance := Except.ok "arn:rep"
                       create_source_endpoint := Except.ok "arn:src"
                       create_target_endpoint := Except.ok "arn:tgt"
                       create_migration_task := Except.ok "arn:task"
                       start_migration := Except.ok true }
      { tasks := Deploy.successTasks, working_parameters := [] }).2.1 rfl
  · exact (provisioning_stage_skip_on_success Deploy.exampleConfig Deploy.c5Env
      (Except.ok ()) { create_replication_instance := Except.ok "arn:rep"
                       create_source_endpoint := Except.ok "arn:src"
                       create_target_endpoint := Except.ok "arn:tgt"
                       create_migration_task := Except.ok "arn:task"
                       start_migration := Except.ok true }
      { tasks := Deploy.successTasks, working_parameters := [] }).2.2 rfl

/-- C6: the final validation stage always re-runs its work — even when its
persisted status is already success, `validate_deployment` (which has no
`should_skip_task` check) invokes the S3 data validation as its first
provider call, so its call list is never empty, unlike the provisioning
stages which are skipped when already successful. -/
theorem validate_stage_always_runs :
    ∀ (env : Deploy.ValidateEnv) (st : Deploy.DeployState),
      st.tasks.validate.status = Deploy.TaskStatus.success →
      (Deploy.validate_deployment env st).calls.head?
          = some Deploy.PCall.validateS3Data ∧
      (Deploy.validate_deployment env st).calls ≠ [] := by
  intro env st _
  unfold Deploy.validate_deployment
  rcases env.validate_s3_data with e | b
  · simp
  · rcases b with _ | _
    · simp
    · rcases env.setup_monitoring with e | u <;> simp

/-- Witness for C6 at a concrete input: the validate stage is already
successful, yet validation work is re-invoked. -/
theorem validate_stage_always_runs_witness :
    ({ tasks := Deploy.successTasks,
       working_parameters := [] } : Deploy.DeployState).tasks.validate.status
        = Deploy.TaskStatus.success ∧
    (Deploy.validate_deployment
        { validate_s3_data := Except.ok true, setup_monitoring := Except.ok () }
        { tasks := Deploy.successTasks, working_parameters := [] }).calls.head?
        = some Deploy.PCall.validateS3Data ∧
    (Deploy.validate_deployment
        { validate_s3_data := Except.ok true, setup_monitoring := Except.ok () }
        { tasks := Deploy.successTasks, working_parameters := [] }).calls ≠ [] := by
  refine ⟨rfl, validate_stage_always_runs
    { validate_s3_data := Except.ok true, setup_monitoring := Except.ok () }
    { tasks := Deploy.successTasks, working_parameters := [] } rfl⟩

namespace Unwind

/-- Recognizes a replication-job (migration task) delete call. -/
def isTaskDelete : UCall → Bool
  | UCall.deleteReplicationTask _ => true
  | _ => false

/-- Recognizes a replication-endpoint delete call. -/
def isEndpointDelete : UCall → Bool
  | UCall.deleteEndpoint _ => true
  | _ => false

/-- Recognizes a replication-instance delete call. -/
def isInstanceDelete : UCall → Bool
  | UCall.deleteReplicationInstance _ => true
  | _ => false

/-- Every call satisfying `p` occurs at a strictly smaller index than every
call satisfying `q`. -/
def callsBefore (p q : UCall → Bool) (l : List UCall) : Prop :=
  ∀ (i j : Nat) (hi : i < l.length) (hj : j < l.length),
    p (l.get ⟨i, hi⟩) = true → q (l.get ⟨j, hj⟩) = true → i < j

theorem callsBefore_append {p q : UCall → Bool} {l1 l2 : List UCall}
    (h1 : ∀ c ∈ l1, q c = false) (h2 : ∀ c ∈ l2, p c = false) :
    callsBefore p q (l1 ++ l2) := by
  intro i j hi hj hpi hqj
  have hlen := List.length_append l1 l2
  have hi1 : i < l1.length := by
    by_contra hge
    push_neg at hge
    have hi2 : i - l1.length < l2.length := by omega
    have hget : (l1 ++ l2).get ⟨i, hi⟩ = l2.get ⟨i - l1.length, hi2⟩ :=
      List.get_append_right l1 l2 hge
    rw [hget] at hpi
    have hfalse := h2 _ (List.get_mem l2 _ hi2)
    rw [hpi] at hfalse
    exact Bool.noConfusion hfalse
  have hj1 : l1.length ≤ j := by
    by_contra hlt
    push_neg at hlt
    have hget : (l1 ++ l2).get ⟨j, hj⟩ = l1.get ⟨j, hlt⟩ :=
      List.get_append j hlt
    rw [hget] at hqj
    have hfalse := h1 _ (List.get_mem l1 _ hlt)
    rw [hqj] at hfalse
    exact Bool.noConfusion hfalse
  omega

/-- The calls inside the stop-wait loop are all read-only describes. -/
theorem waitForStop_calls (env : UEnv) (arn : String) :
    ∀ (fuel i : Nat) (c : UCall), c ∈ waitForStop env arn fuel i →
      c = UCall.describeReplicationTasks := by
  intro fuel
  induction fuel with
  | zero => intro i c hc; simp [waitForStop] at hc
  | succ f ih =>
      intro i c hc
      unfold waitForStop at hc
      rcases hpoll : env.pollTask arn i with _ | s | _ <;>
        rw [hpoll] at hc <;> simp only [] at hc
      · simpa using hc
      · by_cases hs : s ∈ stoppedStatuses
        · rw [if_pos hs] at hc
          simpa using hc
        · rw [if_neg hs] at hc
          rcases List.mem_cons.mp hc with h | h
          · exact h
          · exact ih (i + 1) c h
      · simpa using hc

/-- The calls the migration-task deletion step can issue. -/
def isTaskStepCall : UCall → Bool
  | UCall.describeReplicationTasks => true
  | UCall.stopReplicationTask _ => true
  | UCall.deleteReplicationTask _ => true
  | _ => false

theorem delete_single_task_calls (env : UEnv) (arn : String) :
    ∀ c ∈ (delete_single_task env arn).1, isTaskStepCall c = true := by
  intro c hc
  unfold delete_single_task at hc
  rcases hdesc : env.describeTaskByArn arn with e | found <;>
    rw [hdesc] at hc <;> simp only [] at hc
  · simp at hc
    subst hc
    rfl
  · rcases List.mem_cons.mp hc with rfl | hc2
    · rfl
    · rcases List.mem_append.mp hc2 with h | h
      · rcases found with _ | task <;> simp only [] at h
        · simp at h
        · by_cases hst : task.status ∈ stopRunningStatuses
          · rw [if_pos hst] at h
            rcases hstop : env.stopTaskOutcome arn with _ | e2 <;>
              rw [hstop] at h <;> simp only [] at h
            · rcases List.mem_cons.mp h with rfl | h2
              · rfl
              · rw [waitForStop_calls env arn 30 0 c h2]; rfl
            · simp at h
              subst h
              rfl
          · rw [if_neg hst] at h
            simp at h
      · simp at h
        subst h
        rfl

theorem loopDeleteTasks_calls (env : UEnv) :
    ∀ (ts : List TaskDesc) (c : UCall), c ∈ loopDeleteTasks env ts →
      isTaskStepCall c = true := by
  intro ts
  induction ts with
  | nil => intro c hc; simp [loopDeleteTasks] at hc
  | cons t rest ih =>
      intro c hc
      unfold loopDeleteTasks at hc
      rcases hstep : delete_single_task env t.arn with ⟨calls, err⟩
      rw [hstep] at hc
      have hcalls : ∀ x ∈ calls, isTaskStepCall x = true := by
        intro x hx
        exact delete_single_task_calls env t.arn x (by rw [hstep]; exact hx)
      rcases err with _ | e
      · rcases List.mem_append.mp hc with h | h
        · exact hcalls c h
        · exact ih c h
      · exact hcalls c hc

theorem delete_dms_migration_task_calls (env : UEnv) (res : Resources) :
    ∀ c ∈ delete_dms_migration_task env res, isTaskStepCall c = true := by
  have hparams : ∀ c ∈ delete_dms_migration_task.paramsTaskCalls env res,
      isTaskStepCall c = true := by
    intro c hc
    unfold delete_dms_migration_task.paramsTaskCalls at hc
    rcases h : resGet res "migration_task_arn" with _ | arn <;> rw [h] at hc
    · simp at hc
    · exact delete_single_task_calls env arn c hc
  intro c hc
  unfold delete_dms_migration_task at hc
  rcases hall : env.describeAllTasks with e | ts <;> rw [hall] at hc
  · rcases List.mem_cons.mp hc with rfl | h
    · rfl
    · exact hparams c h
  · rcases ts with _ | ⟨t, ts⟩
    · simp at hc
      subst hc
      rfl
    · rcases List.mem_append.mp hc with h | h
      · rcases List.mem_cons.mp h with rfl | h2
        · rfl
        · exact loopDeleteTasks_calls env _ c h2
      · exact hparams c h

theorem delete_cloudwatch_alarms_calls (res : Resources) :
    ∀ c ∈ delete_cloudwatch_alarms res, ∃ a, c = UCall.deleteAlarm a := by
  intro c hc
  unfold delete_cloudwatch_alarms at hc
  rcases h : resGet res "migration_task_id" with _ | tid <;> rw [h] at hc
  · simp at hc
  · rw [List.mem_map] at hc
    obtain ⟨a, _, rfl⟩ := hc
    exact ⟨a, rfl⟩

theorem delete_dms_endpoints_calls (res : Resources) :
    ∀ c ∈ delete_dms_endpoints res, ∃ a, c = UCall.deleteEndpoint a := by
  intro c hc
  unfold delete_dms_endpoints at hc
  rcases h1 : resGet res "source_endpoint_arn" with _ | s <;> rw [h1] at hc <;>
    rcases h2 : resGet res "target_endpoint_arn" with _ | t <;> rw [h2] at hc <;>
    simp at hc
  · exact ⟨t, hc⟩
  · exact ⟨s, hc⟩
  · rcases hc with rfl | rfl
    · exact ⟨s, rfl⟩
    · exact ⟨t, rfl⟩

theorem filterMap_deleteObjects_mem {bucket : String} {pages : List (List String)}
    {c : UCall}
    (hc : c ∈ pages.filterMap (fun page =>
        if page.isEmpty then none else some (UCall.deleteObjects bucket))) :
    c = UCall.deleteObjects bucket := by
  rw [List.mem_filterMap] at hc
  obtain ⟨page, _, hpage⟩ := hc
  by_cases hpe : page.isEmpty = true
  · rw [if_pos hpe] at hpage
    cases hpage
  · rw [if_neg hpe] at hpage
    exact (Option.some_inj.mp hpage).symm

/-- The calls of the six steps that follow the replication-instance step
(instance, database, RDS, S3, IAM, security group) contain no migration-task
delete and no endpoint delete. -/
theorem tail_steps_calls (env : UEnv) (res : Resources) :
    ∀ c ∈ delete_dms_replication_instance env res ++ delete_database env res
        ++ delete_rds_instance env res ++ delete_s3_bucket env res
        ++ delete_iam_roles env res ++ delete_security_group res,
      isTaskDelete c = false ∧ isEndpointDelete c = false := by
  intro c hc
  simp only [List.append_assoc, List.mem_append] at hc
  rcases hc with hc | hc | hc | hc | hc | hc
  · unfold delete_dms_replication_instance at hc
    rcases h : resGet res "replication_instance_arn" with _ | arn <;> rw [h] at hc
    · simp at hc
    · rcases hout : env.deleteReplInstanceOutcome with _ | e <;> rw [hout] at hc <;>
        simp at hc
      · rcases hc with rfl | rfl <;> exact ⟨rfl, rfl⟩
      · subst hc; exact ⟨rfl, rfl⟩
  · unfold delete_database at hc
    rcases h : resGet res "rds_endpoint" with _ | ep <;> rw [h] at hc
    · simp at hc
    · by_cases hpw : truthy env.auroraPassword = true
      · rw [if_pos hpw] at hc
        by_cases hcon : env.dbConnectOk = true
        · rw [if_pos hcon] at hc
          simp at hc
          subst hc; exact ⟨rfl, rfl⟩
        · rw [if_neg hcon] at hc
          simp at hc
      · rw [if_neg hpw] at hc
        simp at hc
  · unfold delete_rds_instance at hc
    rcases h : resGet res "rds_instance_id" with _ | iid <;> rw [h] at hc
    · simp at hc
    · rcases hout : env.deleteRdsOutcome with _ | e <;> rw [hout] at hc <;> simp at hc
      · rcases hc with rfl | rfl <;> exact ⟨rfl, rfl⟩
      · subst hc; exact ⟨rfl, rfl⟩
  · unfold delete_s3_bucket at hc
    rcases h : resGet res "s3_bucket_name" with _ | bucket <;>
      rw [h] at hc <;> simp only [] at hc
    · simp at hc
    · rcases herr : env.s3ListError with _ | e <;>
        rw [herr] at hc <;> simp only [] at hc
      · rcases List.mem_cons.mp hc with rfl | hc2
        · exact ⟨rfl, rfl⟩
        · rcases List.mem_append.mp hc2 with h2 | h2
          · rcases List.mem_append.mp h2 with h3 | h3
            · rcases List.mem_append.mp h3 with h4 | h4
              · rw [filterMap_deleteObjects_mem h4]
                exact ⟨rfl, rfl⟩
              · simp at h4
                subst h4; exact ⟨rfl, rfl⟩
            · rw [filterMap_deleteObjects_mem h3]
              exact ⟨rfl, rfl⟩
          · simp at h2
            subst h2; exact ⟨rfl, rfl⟩
      · simp at hc
        subst hc; exact ⟨rfl, rfl⟩
  · unfold delete_iam_roles at hc
    rcases List.mem_append.mp hc with h2 | h2
    · rcases h : resGet res "iam_role_name" with _ | role <;>
        rw [h] at h2 <;> simp only [] at h2
      · simp at h2
      · rcases hpol : env.listPoliciesResult with e | policies <;>
          rw [hpol] at h2 <;> simp only [] at h2
        · simp at h2
          subst h2; exact ⟨rfl, rfl⟩
        · rcases List.mem_cons.mp h2 with rfl | h3
          · exact ⟨rfl, rfl⟩
          · rcases List.mem_append.mp h3 with h4 | h4
            · rw [List.mem_map] at h4
              obtain ⟨p, _, rfl⟩ := h4
              exact ⟨rfl, rfl⟩
            · simp at h4
              subst h4; exact ⟨rfl, rfl⟩
    · rcases hout : env.vpcDetachOutcome with _ | e <;>
        rw [hout] at h2 <;> simp only [] at h2 <;> simp at h2
      · rcases h2 with rfl | rfl <;> exact ⟨rfl, rfl⟩
      · subst h2; exact ⟨rfl, rfl⟩
  · unfold delete_security_group at hc
    rcases h : resGet res "security_group_id" with _ | sg <;> rw [h] at hc
    · simp at hc
    · simp at hc
      subst hc; exact ⟨rfl, rfl⟩

/-- The calls of the three steps that precede the replication-instance step
(alarms, migration task, endpoints) contain no replication-instance delete. -/
theorem front_steps_calls (env : UEnv) (res : Resources) :
    ∀ c ∈ delete_cloudwatch_alarms res ++ delete_dms_migration_task env res
        ++ delete_dms_endpoints res,
      isInstanceDelete c = false := by
  intro c hc
  simp only [List.append_assoc, List.mem_append] at hc
  rcases hc with hc | hc | hc
  · obtain ⟨a, rfl⟩ := delete_cloudwatch_alarms_calls res c hc
    rfl
  · have := delete_dms_migration_task_calls env res c hc
    cases c <;> simp_all [isTaskStepCall, isInstanceDelete]
  · obtain ⟨a, rfl⟩ := delete_dms_endpoints_calls res c hc
    rfl

theorem confirm_eq_destroy {res : Resources} {input : String}
    (h : confirm_destruction res input = true) : input = "DESTROY" := by
  unfold confirm_destruction at h
  by_cases he : res.isEmpty = true
  · rw [if_pos he] at h
    exact Bool.noConfusion h
  · rw [if_neg he] at h
    exact eq_of_beq h

/-- A provider environment in which every resource is already absent and
every call succeeds; the operator types `no` at the prompt. -/
def baseEnv : UEnv :=
  { userInput := "no"
    progress := none
    now := "2024-02-01 00:00:00 UTC"
    markerWriteOk := true
    describeAllTasks := Except.ok []
    describeTaskByArn := fun _ => Except.ok none
    stopTaskOutcome := fun _ => none
    pollTask := fun _ _ => PollRes.gone
    deleteTaskOutcome := fun _ => none
    deleteReplInstanceOutcome := none
    auroraPassword := none
    dbConnectOk := false
    deleteRdsOutcome := none
    s3ListError := none
    objectPages := []
    versionPages := []
    listPoliciesResult := Except.ok []
    vpcDetachOutcome := none }

end Unwind

/-- C1: for every teardown run in which the completion marker is not
already set, the destruction prompt is reached, and if the typed input is
anything other than the exact literal `DESTROY` the teardown returns the
non-success result `False` having issued no provider call and written no
marker; moreover, in any run whatsoever, a destructive provider call is
issued only when the operator input was exactly `DESTROY`.  (A run whose
completion marker is already set returns before the prompt and issues no
call at all — claim C10.) -/
theorem unwind_requires_destroy_confirmation :
    ∀ (env : Unwind.UEnv) (res : Unwind.Resources),
      (env.progress ≠ some true → env.userInput ≠ "DESTROY" →
        Unwind.run_unwind env res
          = { result := false, calls := [], marker := none }) ∧
      (∀ c, c ∈ (Unwind.run_unwind env res).calls → c.isDestructive = true →
        env.userInput = "DESTROY") := by
  intro env res
  constructor
  · intro hp hin
    have hc : Unwind.confirm_destruction res env.userInput = false := by
      unfold Unwind.confirm_destruction
      by_cases he : res.isEmpty = true
      · rw [if_pos he]
      · rw [if_neg he]
        exact beq_eq_false_iff_ne.mpr hin
    unfold Unwind.run_unwind
    rcases hprog : env.progress with _ | b
    · simp only [hprog]
      rw [if_neg (by simp [hc])]
    · rcases b with _ | _
      · simp only [hprog]
        rw [if_neg (by simp [hc])]
      · exact absurd hprog hp
  · intro c hcm _
    unfold Unwind.run_unwind at hcm
    rcases hprog : env.progress with _ | b
    · simp only [hprog] at hcm
      by_cases hcd : Unwind.confirm_destruction res env.userInput = true
      · exact Unwind.confirm_eq_destroy hcd
      · rw [if_neg hcd] at hcm
        simp at hcm
    · rcases b with _ | _
      · simp only [hprog] at hcm
        by_cases hcd : Unwind.confirm_destruction res env.userInput = true
        · exact Unwind.confirm_eq_destroy hcd
        · rw [if_neg hcd] at hcm
          simp at hcm
      · simp only [hprog] at hcm
        simp at hcm

namespace Unwind

/-- Resources recorded for the C1 scenarios: just a migration task id. -/
def c1Resources : Resources :=
  [("migration_task_id", some "sqlserver-to-s3-migration")]

/-- The C1 refused run: marker absent, input `no`. -/
def c1RefusedEnv : UEnv := baseEnv

/-- The C1 confirmed run: marker absent, input `DESTROY`. -/
def c1ConfirmedEnv : UEnv := { baseEnv with userInput := "DESTROY" }

end Unwind

/-- Witness for C1 at concrete inputs: a refused run returns `False` with
no calls, and a confirmed run issues a destructive alarm-delete call with
input exactly `DESTROY`. -/
theorem unwind_requires_destroy_confirmation_witness :
    Unwind.c1RefusedEnv.progress ≠ some true ∧
    Unwind.c1RefusedEnv.userInput ≠ "DESTROY" ∧
    Unwind.run_unwind Unwind.c1RefusedEnv Unwind.c1Resources
      = { result := false, calls := [], marker := none } ∧
    Unwind.UCall.deleteAlarm "DMS-Task-Failure-sqlserver-to-s3-migration"
        ∈ (Unwind.run_unwind Unwind.c1ConfirmedEnv Unwind.c1Resources).calls ∧
    (Unwind.UCall.deleteAlarm
        "DMS-Task-Failure-sqlserver-to-s3-migration").isDestructive = true ∧
    Unwind.c1ConfirmedEnv.userInput = "DESTROY" := by
  have hmem : Unwind.UCall.deleteAlarm "DMS-Task-Failure-sqlserver-to-s3-migration"
      ∈ (Unwind.run_unwind Unwind.c1ConfirmedEnv Unwind.c1Resources).calls := by decide
  exact ⟨by decide, by decide,
    (unwind_requires_destroy_confirmation Unwind.c1RefusedEnv Unwind.c1Resources).1
      (by decide) (by decide),
    hmem, rfl,
    (unwind_requires_destroy_confirmation Unwind.c1ConfirmedEnv Unwind.c1Resources).2
      _ hmem rfl⟩

/-- C2: in every teardown run (in particular every confirmed one), each
delete call for the replication job (migration task) occurs at a strictly
smaller position in the issued-call sequence than each delete call for the
replication instance, and likewise each endpoint delete occurs strictly
before each replication-instance delete. -/
theorem unwind_delete_order :
    ∀ (env : Unwind.UEnv) (res : Unwind.Resources),
      Unwind.callsBefore Unwind.isTaskDelete Unwind.isInstanceDelete
          (Unwind.run_unwind env res).calls ∧
      Unwind.callsBefore Unwind.isEndpointDelete Unwind.isInstanceDelete
          (Unwind.run_unwind env res).calls := by
  intro env res
  have hnil : ∀ (p q : Unwind.UCall → Bool), Unwind.callsBefore p q [] := by
    intro p q i j hi hj
    simp at hi
  have hcases : (Unwind.run_unwind env res).calls = [] ∨
      (Unwind.run_unwind env res).calls =
        (Unwind.delete_cloudwatch_alarms res ++ Unwind.delete_dms_migration_task env res
          ++ Unwind.delete_dms_endpoints res) ++
        (Unwind.delete_dms_replication_instance env res ++ Unwind.delete_database env res
          ++ Unwind.delete_rds_instance env res ++ Unwind.delete_s3_bucket env res
          ++ Unwind.delete_iam_roles env res ++ Unwind.delete_security_group res) := by
    unfold Unwind.run_unwind
    rcases env.progress with _ | b
    · by_cases hcd : Unwind.confirm_destruction res env.userInput = true
      · right
        rw [if_pos hcd]
        simp [List.append_assoc]
      · left
        rw [if_neg hcd]
    · rcases b with _ | _
      · by_cases hcd : Unwind.confirm_destruction res env.userInput = true
        · right
          rw [if_pos hcd]
          simp [List.append_assoc]
        · left
          rw [if_neg hcd]
      · left
        rfl
  rcases hcases with h | h <;> rw [h]
  · exact ⟨hnil _ _, hnil _ _⟩
  · exact ⟨Unwind.callsBefore_append (Unwind.front_steps_calls env res)
        (fun c hc => (Unwind.tail_steps_calls env res c hc).1),
      Unwind.callsBefore_append (Unwind.front_steps_calls env res)
        (fun c hc => (Unwind.tail_steps_calls env res c hc).2)⟩

namespace Unwind

/-- Resources for the C2 scenario: a recorded migration task and a
replication instance. -/
def c2Resources : Resources :=
  [("migration_task_arn", some "arn:aws:dms:us-east-1:123456789012:task:T1"),
   ("replication_instance_arn", some "arn:aws:dms:us-east-1:123456789012:rep:R1")]

/-- Environment for the C2 scenario: confirmed; the global task listing
raises, so the task recorded in the parameters is deleted instead. -/
def c2Env : UEnv :=
  { baseEnv with userInput := "DESTROY", describeAllTasks := Except.error () }

end Unwind

/-- Witness for C2 at a concrete input: the migration-task delete sits at
index 2 of the issued-call sequence and the replication-instance delete at
index 3, and the theorem yields 2 < 3. -/
theorem unwind_delete_order_witness :
    (Unwind.run_unwind Unwind.c2Env Unwind.c2Resources).calls.get? 2
        = some (Unwind.UCall.deleteReplicationTask
            "arn:aws:dms:us-east-1:123456789012:task:T1") ∧
    (Unwind.run_unwind Unwind.c2Env Unwind.c2Resources).calls.get? 3
        = some (Unwind.UCall.deleteReplicationInstance
            "arn:aws:dms:us-east-1:123456789012:rep:R1") ∧
    (2 : Nat) < 3 := by
  refine ⟨by decide, by decide, ?_⟩
  exact (unwind_delete_order Unwind.c2Env Unwind.c2Resources).1 2 3
    (by decide) (by decide) (by decide) (by decide)

namespace Unwind

/-- Resources for the C3 scenario: a recorded replication instance and a
security group. -/
def c3Resources : Resources :=
  [("replication_instance_arn", some "arn:aws:dms:us-east-1:123456789012:rep:R1"),
   ("security_group_id", some "sg-0a1b2c3d")]

/-- A confirmed run in which every step succeeds. -/
def c3CleanEnv : UEnv := { baseEnv with userInput := "DESTROY" }

/-- The same confirmed run except that deleting the replication instance
raises a non-NotFound `ClientError` — bin/unwind.py logs this as a failed
step and moves on. -/
def c3FailEnv : UEnv :=
  { c3CleanEnv with deleteReplInstanceOutcome := some ErrCode.other }

end Unwind

/-- C3 counterexample: a teardown run in which the replication-instance
delete raises (a failed step, logged as an error by the source) returns the
same bare Boolean `True` as the failure-free run at the same resources —
`run_unwind` returns no `Success | PartialFailure` distinction and
aggregates no list of failed steps. -/
theorem unwind_result_counterexample :
    Unwind.c3FailEnv.deleteReplInstanceOutcome = some Unwind.ErrCode.other ∧
    Unwind.c3CleanEnv.deleteReplInstanceOutcome = none ∧
    (Unwind.run_unwind Unwind.c3FailEnv Unwind.c3Resources).result = true ∧
    (Unwind.run_unwind Unwind.c3CleanEnv Unwind.c3Resources).result = true := by
  exact ⟨rfl, rfl, by decide, by decide⟩

/-- C3 (amended): failures inside individual teardown steps are caught per
step and the teardown proceeds through the remaining steps (the final
security-group step is still reached), but no list of failed steps is
aggregated or returned — every confirmed run returns the plain Boolean
`True` regardless of step failures. -/
theorem unwind_result_amended :
    ∀ (env : Unwind.UEnv) (res : Unwind.Resources),
      env.progress ≠ some true →
      Unwind.confirm_destruction res env.userInput = true →
      ((Unwind.run_unwind env res).result = true ∧
        ∀ sg_id, Unwind.resGet res "security_group_id" = some sg_id →
          Unwind.UCall.deleteSecurityGroup sg_id
            ∈ (Unwind.run_unwind env res).calls) := by
  intro env res hp hcd
  unfold Unwind.run_unwind
  rcases hprog : env.progress with _ | b
  · simp only [hprog]
    rw [if_pos hcd]
    refine ⟨rfl, fun sg_id hsg => ?_⟩
    simp [List.mem_append, Unwind.delete_security_group, hsg]
  · rcases b with _ | _
    · simp only [hprog]
      rw [if_pos hcd]
      refine ⟨rfl, fun sg_id hsg => ?_⟩
      simp [List.mem_append, Unwind.delete_security_group, hsg]
    · exact absurd hprog hp

/-- Witness for the amended C3 theorem at a concrete input: a confirmed run
with a failing replication-instance delete still returns `True` and still
reaches the final security-group step. -/
theorem unwind_result_amended_witness :
    Unwind.c3FailEnv.progress ≠ some true ∧
    Unwind.confirm_destruction Unwind.c3Resources Unwind.c3FailEnv.userInput = true ∧
    (Unwind.run_unwind Unwind.c3FailEnv Unwind.c3Resources).result = true ∧
    Unwind.UCall.deleteSecurityGroup "sg-0a1b2c3d"
      ∈ (Unwind.run_unwind Unwind.c3FailEnv Unwind.c3Resources).calls := by
  have h := unwind_result_amended Unwind.c3FailEnv Unwind.c3Resources
    (by decide) (by decide)
  exact ⟨by decide, by decide, h.1, h.2 _ (by decide)⟩

namespace Unwind

/-- Resources for the C10 scenario. -/
def c10Resources : Resources :=
  [("replication_instance_arn", some "arn:aws:dms:us-east-1:123456789012:rep:R1")]

/-- A confirmed run in which the replication-instance delete fails (and is
logged), to show the marker content is unaffected by step errors. -/
def c10Env : UEnv :=
  { baseEnv with userInput := "DESTROY",
                 deleteReplInstanceOutcome := some ErrCode.other }

/-- A later invocation: the completion marker already records
`unwind_completed = true`. -/
def c10DoneEnv : UEnv := { baseEnv with progress := some true }

end Unwind

/-- C10: once the confirmed step sequence finishes (which it always does —
every step catches its own exceptions), the completion marker is written
with `unwind_completed = true` and the fixed success status string, even
when individual deletion steps encountered and logged errors; and whenever
the marker already records completion, `run_unwind` returns `True`
immediately — before the confirmation prompt, whatever the operator input,
and with no provider call and no marker rewrite. -/
theorem unwind_marker_semantics :
    ∀ (env : Unwind.UEnv) (res : Unwind.Resources),
      (env.progress ≠ some true →
        Unwind.confirm_destruction res env.userInput = true →
        env.markerWriteOk = true →
        (Unwind.run_unwind env res).marker
          = some { unwind_completed := true
                   completion_time := env.now
                   original_deployment_params := res
                   status := "All AWS resources successfully destroyed" }) ∧
      (env.progress = some true →
        Unwind.run_unwind env res
          = { result := true, calls := [], marker := none }) := by
  intro env res
  constructor
  · intro hp hcd hw
    unfold Unwind.run_unwind
    rcases hprog : env.progress with _ | b
    · simp only [hprog]
      rw [if_pos hcd]
      simp [Unwind.save_unwind_progress, hw]
    · rcases b with _ | _
      · simp only [hprog]
        rw [if_pos hcd]
        simp [Unwind.save_unwind_progress, hw]
      · exact absurd hprog hp
  · intro hp
    unfold Unwind.run_unwind
    rw [hp]

/-- Witness for C10 at concrete inputs: a confirmed run with a failing step
still writes the completed/success marker, and a subsequent invocation
against the completed marker returns success with no calls. -/
theorem unwind_marker_semantics_witness :
    Unwind.c10Env.progress ≠ some true ∧
    Unwind.confirm_destruction Unwind.c10Resources Unwind.c10Env.userInput = true ∧
    Unwind.c10Env.markerWriteOk = true ∧
    (Unwind.run_unwind Unwind.c10Env Unwind.c10Resources).marker
      = some { unwind_completed := true
               completion_time := "2024-02-01 00:00:00 UTC"
               original_deployment_params := Unwind.c10Resources
               status := "All AWS resources successfully destroyed" } ∧
    Unwind.c10DoneEnv.progress = some true ∧
    Unwind.run_unwind Unwind.c10DoneEnv Unwind.c10Resources
      = { result := true, calls := [], marker := none } := by
  exact ⟨by decide, by decide, rfl,
    (unwind_marker_semantics Unwind.c10Env Unwind.c10Resources).1
      (by decide) (by decide) rfl,
    rfl,
    (unwind_marker_semantics Unwind.c10DoneEnv Unwind.c10Resources).2 rfl⟩
